import Mathlib

/-!
Shallow embedding of the pool/session registry and broadcast engine of
infisk8-server (src/manager/pool.go), together with the join flow of the
API layer. Go maps are modelled as association lists with the usual
unique-key invariant of a map; the external transport collaborator
(pion/webrtc) enters only through explicit outcome parameters:
the construction outcome of a peer connection, the outcome of the
connect (offer/answer) step, and the outcomes of per-channel send and
per-connection close calls.
-/

namespace Infisk8

/-- Error taxonomy. Each constructor stands for one distinct error return
in the source: notFound for the lookup-miss errors of Manager.Pool and
Pool.CloseSession, duplicateName for the collision error of
Manager.NewPool, transportFailure for a webrtc.NewPeerConnection failure
inside NewSession, badOffer for a SetRemoteDescription or CreateAnswer
failure inside Session.Connect, closeFailure for a pc.Close failure
inside CloseSession. -/
inductive Err where
  | notFound
  | duplicateName
  | badOffer
  | transportFailure
  | closeFailure
  deriving DecidableEq, Repr

/-- A data-channel handle as Broadcast uses it: only the outcome of a
Send call on it is observable in the embedded state. -/
structure Chan where
  sendOk : Bool
  deriving DecidableEq, Repr

/-- A peer-connection handle: an identity used to track on which
connections Close has been invoked, plus the outcome of that Close. -/
structure PC where
  handle : Nat
  closeOk : Bool
  deriving DecidableEq, Repr

/-- A session (struct Session in the source): the pool-scoped identifier
ID, the open flag (named openFlag because open is a Lean keyword), the
peer connection pc, and the label-to-channel map dc, modelled as an
association list. -/
structure Session where
  ID : String
  openFlag : Bool
  pc : PC
  dc : List (String × Chan)
  deriving DecidableEq, Repr

/-- Go map read m[k] in comma-ok form: the first binding of the key. -/
def lookupL {α : Type} : String → List (String × α) → Option α
  | _, [] => none
  | k, p :: ps => if p.1 = k then some p.2 else lookupL k ps

/-- Go map write m[k] = v: replace the binding in place when the key is
present, append a new binding otherwise. -/
def mapInsertL {α : Type} : List (String × α) → String → α → List (String × α)
  | [], k, v => [(k, v)]
  | p :: ps, k, v => if p.1 = k then (k, v) :: ps else p :: mapInsertL ps k v

/-- Go delete(m, k): drop the binding of the key. -/
def eraseKey {α : Type} : String → List (String × α) → List (String × α)
  | _, [] => []
  | k, p :: ps => if p.1 = k then eraseKey k ps else p :: eraseKey k ps

/-- The connection configuration a pool carries (field config). -/
structure Config where
  iceURLs : List String
  deriving DecidableEq, Repr

/-- State of one Pool: the session registry, the value this pool last
wrote to the session gauge via sessionGauge.Set(len(sessions)) (the
gauge is process-global in the source; the field records the value this
pool last Set), and the handles of the peer connections on which Close
has been invoked. -/
structure PoolState where
  config : Config
  sessions : List (String × Session)
  sessionGauge : Nat
  closedPCs : List Nat
  deriving DecidableEq, Repr

/-- The session built by NewSession(pool, id) when
webrtc.NewPeerConnection succeeds: the open flag is false and the
channel map dc empty at construction. -/
def freshSession (id : String) (pc : PC) : Session :=
  { ID := id, openFlag := false, pc := pc, dc := [] }

/-- Pool.NewSession(sd, id): construct a session (the transport outcome
of webrtc.NewPeerConnection supplied as construct); on a construction
failure return the error with the pool untouched. On success, register
the session under id — overwriting any previous binding, without closing
the previous peer connection — update the session gauge, and return the
result of session.Connect(sd) (supplied as connectRes): the source
returns that result directly, leaving the registered session in place
whether Connect succeeded or failed. -/
def Pool.NewSessionOp (st : PoolState) (id : String) (construct : Option PC)
    (connectRes : Except Err String) : Except Err String × PoolState :=
  match construct with
  | none => (Except.error Err.transportFailure, st)
  | some pc =>
      let ss := mapInsertL st.sessions id (freshSession id pc)
      (connectRes, { st with sessions := ss, sessionGauge := ss.length })

/-- Pool.CloseSession(id): a lookup miss returns the not-found error and
changes nothing; otherwise pc.Close() is invoked (recorded in
closedPCs); a Close failure is returned with the session still
registered; on a successful Close the binding is deleted and the session
gauge set to the new registry size. -/
def Pool.CloseSessionOp (st : PoolState) (id : String) : Except Err Unit × PoolState :=
  match lookupL id st.sessions with
  | none => (Except.error Err.notFound, st)
  | some s =>
      let st1 := { st with closedPCs := s.pc.handle :: st.closedPCs }
      if s.pc.closeOk then
        let ss := eraseKey id st1.sessions
        (Except.ok (), { st1 with sessions := ss, sessionGauge := ss.length })
      else
        (Except.error Err.closeFailure, st1)

/-- One Send invocation performed by Broadcast: the recipient key, the
channel value the source indexes out of s.dc[label] — none models the
nil zero value a Go map read yields when the label is absent — and the
payload. -/
structure SendAttempt where
  id : String
  chan : Option Chan
  data : List Nat
  deriving DecidableEq, Repr

/-- Pool.Broadcast(cid, label, data): iterate the session registry,
skip sessions whose open flag is false and the entry whose key equals
the sender cid, and for every remaining recipient invoke Send on
s.dc[label] — the source performs this call unconditionally, with no
presence check on the label, and a Send error is only logged. The
result is the list of Send invocations performed, in registry order. -/
def Pool.BroadcastOp (sessions : List (String × Session)) (cid label : String)
    (data : List Nat) : List SendAttempt :=
  sessions.filterMap fun p =>
    if p.2.openFlag = false then none
    else if p.1 = cid then none
    else some { id := p.1, chan := lookupL label p.2.dc, data := data }

/-- The configuration Manager.NewPool bakes into every pool. -/
def defaultConfig : Config :=
  { iceURLs := ["stun:stun.l.google.com:19302"] }

/-- State of the Manager: the pool registry and the value last written
to the pool gauge via poolGauge.Set(len(pools)). -/
structure ManagerState where
  pools : List (String × PoolState)
  poolGauge : Nat
  deriving DecidableEq, Repr

/-- Manager.Pool(name): lookup, not-found error when absent. -/
def Manager.PoolOp (m : ManagerState) (name : String) : Except Err PoolState :=
  match lookupL name m.pools with
  | none => Except.error Err.notFound
  | some p => Except.ok p

/-- Manager.NewPool(name): duplicate-name error when the name is bound,
leaving the manager untouched; otherwise register a fresh pool carrying
the default configuration and an empty session registry, and update the
pool gauge. -/
def Manager.NewPoolOp (m : ManagerState) (name : String) :
    Except Err PoolState × ManagerState :=
  match lookupL name m.pools with
  | some _ => (Except.error Err.duplicateName, m)
  | none =>
      let p : PoolState :=
        { config := defaultConfig, sessions := [], sessionGauge := 0, closedPCs := [] }
      let ps := mapInsertL m.pools name p
      (Except.ok p, { pools := ps, poolGauge := ps.length })

/-- NewManager: starts from an empty pool registry and immediately calls
NewPool with the name test (the FIXME-marked seed pool in the source). -/
def NewManagerOp : ManagerState :=
  (Manager.NewPoolOp { pools := [], poolGauge := 0 } ("test")).2

/-- Manager.Pools(): the list of registered pool names. -/
def Manager.PoolsOp (m : ManagerState) : List String :=
  m.pools.map Prod.fst

/-- The join flow of the API layer (HandleJoin) after body decoding:
look up the pool — a miss returns the not-found error with the manager
untouched — then run Pool.NewSession on it and write the updated pool
state back (the source mutates the pool through a shared pointer). -/
def HandleJoinOp (m : ManagerState) (name id : String) (construct : Option PC)
    (connectRes : Except Err String) : Except Err String × ManagerState :=
  match lookupL name m.pools with
  | none => (Except.error Err.notFound, m)
  | some p =>
      let r := Pool.NewSessionOp p id construct connectRes
      (r.1, { m with pools := mapInsertL m.pools name r.2 })

/-! Association-list lemmas shared by the claim proofs. -/

/-- Inserting a binding makes it the one the lookup finds. -/
theorem lookupL_mapInsertL_self {α : Type} (m : List (String × α)) (k : String) (v : α) :
    lookupL k (mapInsertL m k v) = some v := by
  induction m with
  | nil => simp [mapInsertL, lookupL]
  | cons p ps ih =>
      by_cases h : p.1 = k
      · simp [mapInsertL, lookupL, h]
      · simp [mapInsertL, lookupL, h, ih]

/-- Deleting a binding removes it from the view of lookup. -/
theorem lookupL_eraseKey_self {α : Type} (m : List (String × α)) (k : String) :
    lookupL k (eraseKey k m) = none := by
  induction m with
  | nil => simp [eraseKey, lookupL]
  | cons p ps ih =>
      by_cases h : p.1 = k
      · simp [eraseKey, h, ih]
      · simp [eraseKey, lookupL, h, ih]

/-- With unique keys, membership determines the lookup result. -/
theorem lookupL_of_mem_nodup {α : Type} {l : List (String × α)} {k : String} {v : α}
    (hnd : (l.map Prod.fst).Nodup) (hm : (k, v) ∈ l) : lookupL k l = some v := by
  induction l with
  | nil => cases hm
  | cons p ps ih =>
      rw [List.map_cons] at hnd
      rcases List.nodup_cons.mp hnd with ⟨hp1, hnd2⟩
      rcases List.mem_cons.mp hm with h | h
      · rw [← h]
        simp [lookupL]
      · have hk : k ∈ ps.map Prod.fst := by
          exact List.mem_map.mpr ⟨(k, v), h, rfl⟩
        have hne : p.1 ≠ k := by
          intro he
          exact hp1 (he ▸ hk)
        simp [lookupL, hne]
        exact ih hnd2 h

/-- Every Send invocation Broadcast performs comes from a registered,
open, non-sender entry, with the channel taken from that entry. -/
theorem broadcastOp_mem {sessions : List (String × Session)} {cid label : String}
    {data : List Nat} {a : SendAttempt}
    (ha : a ∈ Pool.BroadcastOp sessions cid label data) :
    ∃ p, p ∈ sessions ∧ p.2.openFlag = true ∧ p.1 ≠ cid ∧
      a = { id := p.1, chan := lookupL label p.2.dc, data := data } := by
  rcases List.mem_filterMap.mp ha with ⟨p, hp, hf⟩
  by_cases ho : p.2.openFlag = false
  · simp [ho] at hf
  · by_cases hc : p.1 = cid
    · simp [ho, hc] at hf
    · simp [ho, hc] at hf
      exact ⟨p, hp, by simpa using ho, hc, hf.symm⟩

/-! Claim theorems. -/

/-- Claim C4: for every session registry, sender, label and payload,
Pool.Broadcast never performs a Send invocation whose recipient key is
the sender identifier — no self-delivery. -/
theorem broadcast_never_self (sessions : List (String × Session)) (cid label : String)
    (data : List Nat) :
    ∀ a ∈ Pool.BroadcastOp sessions cid label data, SendAttempt.id a ≠ cid := by
  intro a ha
  rcases broadcastOp_mem ha with ⟨p, _, _, hc, rfl⟩
  simpa using hc

/-- Witness for C4 on a concrete two-session pool: broadcasting from A
reaches B, and that delivery is not to the sender A. -/
theorem broadcast_never_self_witness :
    SendAttempt.id { id := "B", chan := some { sendOk := true }, data := [104] } ≠ "A" :=
  broadcast_never_self
    [(("A"), { ID := "A", openFlag := true, pc := { handle := 1, closeOk := true },
               dc := [(("chat"), { sendOk := true })] }),
     (("B"), { ID := "B", openFlag := true, pc := { handle := 2, closeOk := true },
               dc := [(("chat"), { sendOk := true })] })]
    ("A") ("chat") [104]
    { id := "B", chan := some { sendOk := true }, data := [104] }
    (by decide)

/-- Claim C5: a session whose open flag is false receives no Send
invocation from any Broadcast call, for every sender, label and
payload (registry keys unique, as they are for a Go map). -/
theorem broadcast_skips_closed (sessions : List (String × Session)) (cid label : String)
    (data : List Nat) (id : String) (s : Session)
    (hnd : (sessions.map Prod.fst).Nodup)
    (hm : (id, s) ∈ sessions) (hcl : s.openFlag = false) :
    ∀ a ∈ Pool.BroadcastOp sessions cid label data, SendAttempt.id a ≠ id := by
  intro a ha heq
  rcases broadcastOp_mem ha with ⟨p, hp, hopen, _, rfl⟩
  rcases p with ⟨pid, ps⟩
  simp only [SendAttempt.id] at heq
  subst heq
  have h1 : lookupL pid sessions = some s := lookupL_of_mem_nodup hnd hm
  have h2 : lookupL pid sessions = some ps := lookupL_of_mem_nodup hnd hp
  rw [h1] at h2
  cases Option.some.inj h2
  rw [hcl] at hopen
  cases hopen

/-- Witness for C5 on a concrete registry holding an open session A and
a closed session B: the Send invocation that reaches A is not a
delivery to the closed B. -/
theorem broadcast_skips_closed_witness :
    SendAttempt.id { id := "A", chan := none, data := [7] } ≠ "B" :=
  broadcast_skips_closed
    [(("A"), { ID := "A", openFlag := true, pc := { handle := 1, closeOk := true }, dc := [] }),
     (("B"), { ID := "B", openFlag := false, pc := { handle := 2, closeOk := true }, dc := [] })]
    ("C") ("chat") [7] ("B")
    { ID := "B", openFlag := false, pc := { handle := 2, closeOk := true }, dc := [] }
    (by decide) (by decide) rfl
    { id := "A", chan := none, data := [7] } (by decide)

/-- Claim C2 (failing input): with one registered, open session B whose
channel map has no entry for the label, Broadcast from sender A does not
skip B — it performs a Send invocation whose channel value is none, the
nil zero value the Go map read yields. In the source this is the call
s.dc[label].Send(data) on a nil webrtc.DataChannel pointer. -/
theorem broadcast_absent_label_nil_send :
    Pool.BroadcastOp
      [(("B"), { ID := "B", openFlag := true, pc := { handle := 2, closeOk := true }, dc := [] })]
      ("A") ("chat") [104, 105]
      = [{ id := "B", chan := none, data := [104, 105] }] := by
  decide

/-- Claim C1 (counterexample): on an empty pool, NewSession with a
successful peer-connection construction but a failing Connect returns
the Connect error, yet the session remains registered under its id —
partial registration does remain. -/
theorem newSession_partial_registration_cex :
    (Pool.NewSessionOp
        { config := defaultConfig, sessions := [], sessionGauge := 0, closedPCs := [] }
        ("A") (some { handle := 1, closeOk := true }) (Except.error Err.badOffer)).1
      = Except.error Err.badOffer ∧
    lookupL ("A")
        (Pool.NewSessionOp
          { config := defaultConfig, sessions := [], sessionGauge := 0, closedPCs := [] }
          ("A") (some { handle := 1, closeOk := true }) (Except.error Err.badOffer)).2.sessions
      = some (freshSession ("A") { handle := 1, closeOk := true }) := by
  exact ⟨rfl, by decide⟩

/-- Claim C1 (amended): when peer-connection construction fails,
NewSession returns the construction error and the pool state is
unchanged — no registration; when construction succeeds and Connect
fails, the error is propagated but the freshly registered session
remains in the session map. -/
theorem newSession_registration_amended (st : PoolState) (id : String)
    (connectRes : Except Err String) :
    (Pool.NewSessionOp st id none connectRes).1 = Except.error Err.transportFailure ∧
    (Pool.NewSessionOp st id none connectRes).2 = st ∧
    ∀ pc : PC, ∀ e : Err,
      (Pool.NewSessionOp st id (some pc) (Except.error e)).1 = Except.error e ∧
      lookupL id (Pool.NewSessionOp st id (some pc) (Except.error e)).2.sessions
        = some (freshSession id pc) := by
  refine ⟨rfl, rfl, fun pc e => ⟨rfl, ?_⟩⟩
  simp [Pool.NewSessionOp, lookupL_mapInsertL_self]

/-- Claim C6: a successful CloseSession removes the binding — the
session can no longer be looked up, the session gauge equals the size
of the registry that no longer holds it, and an immediately following
CloseSession of the same id fails not-found; and CloseSession of an id
that is not in the registry fails not-found. -/
theorem closeSession_removal_spec :
    (∀ st : PoolState, ∀ id : String, ∀ st2 : PoolState,
      Pool.CloseSessionOp st id = (Except.ok (), st2) →
        lookupL id st2.sessions = none ∧
        st2.sessionGauge = st2.sessions.length ∧
        (Pool.CloseSessionOp st2 id).1 = Except.error Err.notFound) ∧
    (∀ st : PoolState, ∀ id : String,
      lookupL id st.sessions = none →
        (Pool.CloseSessionOp st id).1 = Except.error Err.notFound) := by
  constructor
  · intro st id st2 h
    unfold Pool.CloseSessionOp at h
    cases hl : lookupL id st.sessions with
    | none =>
        rw [hl] at h
        cases h
    | some s =>
        rw [hl] at h
        by_cases hc : s.pc.closeOk
        · simp only [hc, if_true] at h
          have h2 : st2 = { st with
              closedPCs := s.pc.handle :: st.closedPCs,
              sessions := eraseKey id st.sessions,
              sessionGauge := (eraseKey id st.sessions).length } := by
            cases h
            rfl
          subst h2
          refine ⟨lookupL_eraseKey_self st.sessions id, rfl, ?_⟩
          unfold Pool.CloseSessionOp
          rw [show lookupL id (eraseKey id st.sessions) = none from
            lookupL_eraseKey_self st.sessions id]
        · simp only [hc, if_false] at h
          cases h
  · intro st id h
    unfold Pool.CloseSessionOp
    rw [h]

/-- Witness for C6: closing the only session of a concrete pool empties
the registry and gauge, and a second close of the same id — as well as
a close on a pool that never held the id — fails not-found. -/
theorem closeSession_removal_spec_witness :
    lookupL ("A")
        (PoolState.sessions
          { config := defaultConfig, sessions := [], sessionGauge := 0, closedPCs := [1] })
      = none ∧
    (Pool.CloseSessionOp
        { config := defaultConfig, sessions := [], sessionGauge := 0, closedPCs := [] }
        ("A")).1 = Except.error Err.notFound :=
  ⟨(closeSession_removal_spec.1
      { config := defaultConfig,
        sessions := [(("A"), { ID := "A", openFlag := true,
                               pc := { handle := 1, closeOk := true }, dc := [] })],
        sessionGauge := 1, closedPCs := [] }
      ("A")
      { config := defaultConfig, sessions := [], sessionGauge := 0, closedPCs := [1] }
      rfl).1,
   closeSession_removal_spec.2
      { config := defaultConfig, sessions := [], sessionGauge := 0, closedPCs := [] }
      ("A") rfl⟩

/-- Claim C7: when a pool of the given name is registered, a second
NewPool of that name fails duplicate-name and leaves the whole manager
state — in particular the existing pool with its session registry —
unchanged. -/
theorem newPool_duplicate (m : ManagerState) (name : String) (p : PoolState)
    (h : lookupL name m.pools = some p) :
    (Manager.NewPoolOp m name).1 = Except.error Err.duplicateName ∧
    (Manager.NewPoolOp m name).2 = m ∧
    lookupL name (Manager.NewPoolOp m name).2.pools = some p := by
  unfold Manager.NewPoolOp
  rw [h]
  exact ⟨rfl, rfl, h⟩

/-- Witness for C7 on a concrete manager holding a pool named x with a
nonempty session registry. -/
theorem newPool_duplicate_witness :
    (Manager.NewPoolOp
        { pools := [(("x"),
            { config := defaultConfig,
              sessions := [(("s"), { ID := "s", openFlag := true,
                                     pc := { handle := 3, closeOk := true }, dc := [] })],
              sessionGauge := 1, closedPCs := [] })],
          poolGauge := 1 }
        ("x")).1 = Except.error Err.duplicateName :=
  (newPool_duplicate
    { pools := [(("x"),
        { config := defaultConfig,
          sessions := [(("s"), { ID := "s", openFlag := true,
                                 pc := { handle := 3, closeOk := true }, dc := [] })],
          sessionGauge := 1, closedPCs := [] })],
      poolGauge := 1 }
    ("x")
    { config := defaultConfig,
      sessions := [(("s"), { ID := "s", openFlag := true,
                             pc := { handle := 3, closeOk := true }, dc := [] })],
      sessionGauge := 1, closedPCs := [] }
    (by decide)).1

/-- Claim C8: when no pool of the given name is registered,
Manager.Pool fails not-found, and the join flow against that name fails
not-found leaving the entire manager state — hence every pool and every
session registry — unchanged. -/
theorem pool_missing_join_no_effect (m : ManagerState) (name id : String)
    (construct : Option PC) (connectRes : Except Err String)
    (h : lookupL name m.pools = none) :
    Manager.PoolOp m name = Except.error Err.notFound ∧
    (HandleJoinOp m name id construct connectRes).1 = Except.error Err.notFound ∧
    (HandleJoinOp m name id construct connectRes).2 = m := by
  unfold Manager.PoolOp HandleJoinOp
  rw [h]
  exact ⟨rfl, rfl, rfl⟩

/-- Witness for C8 on a concrete manager holding only a pool named y:
joining the absent pool x fails not-found and changes nothing. -/
theorem pool_missing_join_no_effect_witness :
    (HandleJoinOp
        { pools := [(("y"),
            { config := defaultConfig, sessions := [], sessionGauge := 0, closedPCs := [] })],
          poolGauge := 1 }
        ("x") ("A") none (Except.ok ("ans"))).2
      = { pools := [(("y"),
            { config := defaultConfig, sessions := [], sessionGauge := 0, closedPCs := [] })],
          poolGauge := 1 } :=
  (pool_missing_join_no_effect
    { pools := [(("y"),
        { config := defaultConfig, sessions := [], sessionGauge := 0, closedPCs := [] })],
      poolGauge := 1 }
    ("x") ("A") none (Except.ok ("ans")) (by decide)).2.2

/-- Claim C9: NewSession with an id already bound in the registry
silently replaces the previous binding with the fresh session — the
Connect result is returned with no duplicate error — and the previous
peer connection is not closed: the set of closed connection handles is
untouched. -/
theorem newSession_overwrite_no_close (st : PoolState) (id : String) (old : Session)
    (pc : PC) (connectRes : Except Err String)
    (_h : lookupL id st.sessions = some old) :
    lookupL id (Pool.NewSessionOp st id (some pc) connectRes).2.sessions
      = some (freshSession id pc) ∧
    (Pool.NewSessionOp st id (some pc) connectRes).2.closedPCs = st.closedPCs ∧
    (Pool.NewSessionOp st id (some pc) connectRes).1 = connectRes := by
  refine ⟨?_, rfl, rfl⟩
  simp [Pool.NewSessionOp, lookupL_mapInsertL_self]

/-- Witness for C9 on a concrete pool where id A is already bound: the
binding is replaced by the fresh session and no connection is closed. -/
theorem newSession_overwrite_no_close_witness :
    lookupL ("A")
        (Pool.NewSessionOp
          { config := defaultConfig,
            sessions := [(("A"), { ID := "A", openFlag := true,
                                   pc := { handle := 1, closeOk := true }, dc := [] })],
            sessionGauge := 1, closedPCs := [] }
          ("A") (some { handle := 2, closeOk := true }) (Except.ok ("ans"))).2.sessions
      = some (freshSession ("A") { handle := 2, closeOk := true }) :=
  (newSession_overwrite_no_close
    { config := defaultConfig,
      sessions := [(("A"), { ID := "A", openFlag := true,
                             pc := { handle := 1, closeOk := true }, dc := [] })],
      sessionGauge := 1, closedPCs := [] }
    ("A")
    { ID := "A", openFlag := true, pc := { handle := 1, closeOk := true }, dc := [] }
    { handle := 2, closeOk := true } (Except.ok ("ans")) (by decide)).1

/-- Claim C10: a freshly constructed Manager already holds exactly one
pool, named test, and creating a pool named test on it fails with the
duplicate-name error. -/
theorem newManager_seed_test_pool :
    Manager.PoolsOp NewManagerOp = [("test")] ∧
    (Manager.NewPoolOp NewManagerOp ("test")).1 = Except.error Err.duplicateName := by
  constructor
  · rfl
  · rfl

end Infisk8
